import Mathlib

/-!
Verification development for the Hamilton two-body orbital mechanics core.

The C++ sources are shallowly embedded:
* the generic 1-D root finders (`root1d.hpp`) act on rational scalars, so that
  iteration, convergence tests and exit codes are executable and decidable;
* the Keplerian element machinery (`kepler.hpp`, `orbit.hpp` / its out-of-line
  implementation) acts on real scalars, with the C trigonometric and algebraic
  intrinsics modelled by their Mathlib counterparts (`Real.sqrt`, `Real.cos`,
  `Real.arccos`, `Complex.arg` for `atan2`, ...).

Structures, field names, defaults, branch structure and evaluation order follow
the source files.
-/

namespace Hamilton

namespace RootFind

/-- Exit flags of the root search algorithms (`root1d.hpp`, `enum struct ExitStatus`). -/
inductive ExitStatus where
  | OTHER_ERROR
  | SUCCESS
  | MAX_ITERATIONS_EXCEEDED
  | ILL_POSED
  | INVALID_PARAMETERS
  | INVALID_INTERVAL
deriving DecidableEq, Repr

/-- Root search exit struct (`root1d.hpp`, `struct RootFinderResult`). -/
structure RootFinderResult where
  X : ℚ := 0
  Delta : ℚ := 0
  Iterations : ℤ := 0
  ExitCode : ExitStatus := ExitStatus.OTHER_ERROR
deriving DecidableEq, Repr

/-- Newton solver input parameters (`root1d.hpp`, `struct NewtonParameters`). -/
structure NewtonParameters where
  Tolerance : ℚ := 1e-8
  MaxIterations : ℤ := 16
  Relaxation : ℚ := 1
deriving DecidableEq, Repr

/-- Bisection solver input parameters (`root1d.hpp`, `struct BoundedParameters`). -/
structure BoundedParameters where
  Tolerance : ℚ := 1e-8
  MaxIterations : ℤ := 128
deriving DecidableEq, Repr

/-- Default Newtonian solver inputs. -/
def DefaultNewtonParameters : NewtonParameters := {}

/-- Default Bisection solver inputs. -/
def DefaultBoundedParameters : BoundedParameters := {}

/-- The `for` loop of `RootFind::Newton`, fuel-indexed.  `fuel` is the number of
remaining loop iterations (`MaxIterations - index` in the source), `idx` the
current value of the loop counter `Index`, `x`/`delta` the current `Result.X`
and `Result.Delta`.  The fuel-exhausted case is the code after the loop. -/
def newtonLoop (Function Derivative : ℚ → ℚ) (Parameters : NewtonParameters) :
    ℕ → ℕ → ℚ → ℚ → RootFinderResult
  | 0, _, x, delta =>
    { X := x - delta, Delta := delta, Iterations := Parameters.MaxIterations,
      ExitCode :=
        if Parameters.Tolerance < 0 ∨ Parameters.MaxIterations < 1 ∨ Parameters.Relaxation < 0
        then ExitStatus.INVALID_PARAMETERS
        else ExitStatus.MAX_ITERATIONS_EXCEEDED }
  | fuel + 1, idx, x, delta =>
    let x' := x - delta
    if |delta| < Parameters.Tolerance then
      { X := x', Delta := delta, Iterations := (idx : ℤ), ExitCode := ExitStatus.SUCCESS }
    else
      newtonLoop Function Derivative Parameters fuel (idx + 1) x'
        (Parameters.Relaxation * Function x' / Derivative x')

/-- `RootFind::Newton` (`root1d.hpp`): Newtonian iteration `x -= Δ`,
`Δ = relaxation · f(x)/f'(x)` (the initial `Δ` carries no relaxation factor,
exactly as in the source's initialiser). -/
def Newton (Function Derivative : ℚ → ℚ) (Guess : ℚ) (Parameters : NewtonParameters) :
    RootFinderResult :=
  newtonLoop Function Derivative Parameters Parameters.MaxIterations.toNat 0 Guess
    (Function Guess / Derivative Guess)

/-- One transition of the Newton loop state `(Result.X, Result.Delta)`. -/
def newtonStep (Function Derivative : ℚ → ℚ) (Relaxation : ℚ) (s : ℚ × ℚ) : ℚ × ℚ :=
  let x := s.1 - s.2
  (x, Relaxation * Function x / Derivative x)

/-- The sequence of Newton loop states: `(newtonSeq … k).2` is the step `Δ_k`
tested against the tolerance in loop iteration `k`. -/
def newtonSeq (Function Derivative : ℚ → ℚ) (Relaxation Guess : ℚ) : ℕ → ℚ × ℚ
  | 0 => (Guess, Function Guess / Derivative Guess)
  | k + 1 => newtonStep Function Derivative Relaxation (newtonSeq Function Derivative Relaxation Guess k)

/-- The `for` loop of `RootFind::Bisect`, fuel-indexed.  The carried state is
the current bracket `x1 x2`, its function values `f1 f2`, the current midpoint
`mid = 0.5*(x1+x2)` (`Result.X`) and its function value `f3`.  The current
`Result.Delta` is `x2 - x1`; the fuel-exhausted case is the code after the loop. -/
def bisectLoop (Function : ℚ → ℚ) (Parameters : BoundedParameters) :
    ℕ → ℕ → ℚ → ℚ → ℚ → ℚ → ℚ → ℚ → RootFinderResult
  | 0, _, x1, x2, _, _, mid, _ =>
    { X := mid, Delta := x2 - x1, Iterations := Parameters.MaxIterations,
      ExitCode :=
        if Parameters.Tolerance < 0 ∨ Parameters.MaxIterations < 1
        then ExitStatus.INVALID_PARAMETERS
        else ExitStatus.MAX_ITERATIONS_EXCEEDED }
  | fuel + 1, idx, x1, x2, f1, f2, mid, f3 =>
    if f3 = 0 then
      { X := mid, Delta := (x2 - x1) * 0.5, Iterations := (idx : ℤ),
        ExitCode := ExitStatus.SUCCESS }
    else
      let b := if f1 * f3 < 0 then (x1, mid, f1, f3) else (mid, x2, f3, f2)
      let mid' := 0.5 * (b.1 + b.2.1)
      let delta' := b.2.1 - b.1
      if |delta'| < Parameters.Tolerance then
        { X := mid', Delta := delta', Iterations := (idx : ℤ), ExitCode := ExitStatus.SUCCESS }
      else
        bisectLoop Function Parameters fuel (idx + 1) b.1 b.2.1 b.2.2.1 b.2.2.2 mid' (Function mid')

/-- `RootFind::Bisect` (`root1d.hpp`): interval-halving root search with the
source's pre-loop special cases, in their original order (`F1 == 0`, `F2 == 0`,
`F1*F2 > 0`, `X2 - X1 <= 0`). -/
def Bisect (Function : ℚ → ℚ) (X1 X2 : ℚ) (Parameters : BoundedParameters) :
    RootFinderResult :=
  let F1 := Function X1
  let F2 := Function X2
  if F1 = 0 then
    { X := X1, Delta := X2 - X1, ExitCode := ExitStatus.SUCCESS }
  else if F2 = 0 then
    { X := X2, Delta := X2 - X1, ExitCode := ExitStatus.SUCCESS }
  else if F1 * F2 > 0 then
    { X := 0.5 * (X1 + X2), Delta := X2 - X1, ExitCode := ExitStatus.INVALID_INTERVAL }
  else if X2 - X1 ≤ 0 then
    { X := 0.5 * (X1 + X2), Delta := X2 - X1, ExitCode := ExitStatus.INVALID_INTERVAL }
  else
    bisectLoop Function Parameters Parameters.MaxIterations.toNat 0 X1 X2 F1 F2
      (0.5 * (X1 + X2)) (Function (0.5 * (X1 + X2)))

/-- Trace of the loop part of `Bisect`: the list of midpoints at which
`Function` is evaluated inside the loop, mirroring `bisectLoop` branch for
branch. -/
def bisectTraceLoop (Function : ℚ → ℚ) (Parameters : BoundedParameters) :
    ℕ → ℚ → ℚ → ℚ → ℚ → ℚ → ℚ → List ℚ
  | 0, _, _, _, _, _, _ => []
  | fuel + 1, x1, x2, f1, f2, mid, f3 =>
    if f3 = 0 then []
    else
      let b := if f1 * f3 < 0 then (x1, mid, f1, f3) else (mid, x2, f3, f2)
      let mid' := 0.5 * (b.1 + b.2.1)
      let delta' := b.2.1 - b.1
      if |delta'| < Parameters.Tolerance then []
      else
        mid' :: bisectTraceLoop Function Parameters fuel b.1 b.2.1 b.2.2.1 b.2.2.2 mid' (Function mid')
termination_by fuel _ _ _ _ _ _ => fuel

/-- The full list of points at which `Bisect` evaluates `Function`, in
evaluation order: the two boundary points, then — only if the pre-loop special
cases fall through — the successive midpoints. -/
def bisectTrace (Function : ℚ → ℚ) (X1 X2 : ℚ) (Parameters : BoundedParameters) : List ℚ :=
  let F1 := Function X1
  let F2 := Function X2
  [X1, X2] ++
    (if F1 = 0 then []
     else if F2 = 0 then []
     else if F1 * F2 > 0 then []
     else if X2 - X1 ≤ 0 then []
     else (0.5 * (X1 + X2)) ::
       bisectTraceLoop Function Parameters Parameters.MaxIterations.toNat X1 X2 F1 F2
         (0.5 * (X1 + X2)) (Function (0.5 * (X1 + X2))))

/-- Newton parameters with a small iteration cap (fixture for concrete
evaluations). -/
def SmallNewtonParameters : NewtonParameters :=
  { Tolerance := 1e-8, MaxIterations := 6, Relaxation := 1 }

/-- Newton parameters with a negative tolerance (fixture for concrete
evaluations of the invalid-parameter diagnostic). -/
def BadNewtonParameters : NewtonParameters :=
  { Tolerance := -1, MaxIterations := 3, Relaxation := 1 }

/-- Test function `F1` of the repository's root-finder tests: `x² - 2`. -/
def F1 (X : ℚ) : ℚ := X * X - 2

/-- Test derivative `D1` of the repository's root-finder tests: `2x`. -/
def D1 (X : ℚ) : ℚ := 2 * X

/-- Test function `F2` of the repository's root-finder tests: `x² + 2`. -/
def F2 (X : ℚ) : ℚ := X * X + 2

end RootFind

open scoped Classical

noncomputable section

/-! ### The real-valued math layer (`core_math.hpp`, `constants.hpp`)

The C++ layer dispatches every intrinsic to `gcem`/`libm` doubles; here each is
modelled by the corresponding exact real function. -/

/-- `PI`, the literal defined in `core_math.hpp`. -/
def PI : ℝ := 3.14159265358979323846

/-- Speed of light in vacuum (m/s) (`constants.hpp`). -/
def SPEED_LIGHT : ℝ := 299792458

/-- `Infinity<double>()`.  IEEE `+inf` has no counterpart in `ℝ`; it is
modelled by `2^1024`, the first power of two beyond double range.  No theorem
below depends on this value. -/
def Infinity : ℝ := 2 ^ (1024 : ℕ)

/-- `Sqrt` of `core_math.hpp` (`gcem::sqrt` / `::sqrt`). -/
def Sqrt (Val : ℝ) : ℝ := Real.sqrt Val

/-- `Sin` of `core_math.hpp`. -/
def Sin (Val : ℝ) : ℝ := Real.sin Val

/-- `Cos` of `core_math.hpp`. -/
def Cos (Val : ℝ) : ℝ := Real.cos Val

/-- `Tan` of `core_math.hpp`. -/
def Tan (Val : ℝ) : ℝ := Real.tan Val

/-- `Atan` of `core_math.hpp`. -/
def Atan (Val : ℝ) : ℝ := Real.arctan Val

/-- `Acos` of `core_math.hpp` (`gcem::acos` / `::acos`), range `[0, π]`. -/
def Acos (Val : ℝ) : ℝ := Real.arccos Val

/-- `Atan2(Y, X)` of `core_math.hpp`: the C `atan2`, modelled as the principal
argument of the complex number `X + Y·i`, which has the same quadrant
conventions and the same range `(-π, π]`. -/
def Atan2 (Y X : ℝ) : ℝ := Complex.arg ⟨X, Y⟩

/-- `Sinh`. -/
def Sinh (Val : ℝ) : ℝ := Real.sinh Val

/-- `Cosh`. -/
def Cosh (Val : ℝ) : ℝ := Real.cosh Val

/-- `Asinh`. -/
def Asinh (Val : ℝ) : ℝ := Real.arsinh Val

/-- `Square(X) = X * X`. -/
def Square (Val : ℝ) : ℝ := Val * Val

/-- `Cube(X) = X * X * X`. -/
def Cube (Val : ℝ) : ℝ := Val * Val * Val

/-- C `trunc`: round toward zero. -/
def Ftrunc (Val : ℝ) : ℝ := if 0 ≤ Val then (⌊Val⌋ : ℝ) else (⌈Val⌉ : ℝ)

/-- `Fmod` of `core_math.hpp`: the C `fmod`, `x - y·trunc(x/y)`. -/
def Fmod (Val Divisor : ℝ) : ℝ := Val - Divisor * Ftrunc (Val / Divisor)

/-- C `floor`, as a real-valued function. -/
def Floor (Val : ℝ) : ℝ := (⌊Val⌋ : ℝ)

/-- C `cbrt`: the real cube root, sign-preserving. -/
def Cbrt (Val : ℝ) : ℝ :=
  if 0 ≤ Val then Val ^ ((1 : ℝ) / 3) else -((-Val) ^ ((1 : ℝ) / 3))

/-! ### Vectors and quaternions (`vector3.hpp`, `quaternion.hpp`) -/

/-- Three component vector (`class Vector3`, components from `Axis3`). -/
structure Vector3 where
  X : ℝ := 0
  Y : ℝ := 0
  Z : ℝ := 0

namespace Vector3

/-- `Vector3::ZERO()`. -/
def ZERO : Vector3 := ⟨0, 0, 0⟩

/-- `Vector3::UNIT_X()`. -/
def UNIT_X : Vector3 := ⟨1, 0, 0⟩

/-- `Vector3::UNIT_Y()`. -/
def UNIT_Y : Vector3 := ⟨0, 1, 0⟩

/-- `Vector3::UNIT_Z()`. -/
def UNIT_Z : Vector3 := ⟨0, 0, 1⟩

/-- `Vector3::NormSquared()`. -/
def NormSquared (v : Vector3) : ℝ := v.X * v.X + v.Y * v.Y + v.Z * v.Z

/-- `Vector3::Norm()`. -/
def Norm (v : Vector3) : ℝ := Sqrt v.NormSquared

/-- Static `Vector3::Cross(U, V)`. -/
def Cross (U V : Vector3) : Vector3 :=
  ⟨U.Y * V.Z - U.Z * V.Y, -U.X * V.Z + U.Z * V.X, U.X * V.Y - U.Y * V.X⟩

/-- Static `Vector3::Dot(U, V)`. -/
def Dot (U V : Vector3) : ℝ := U.X * V.X + U.Y * V.Y + U.Z * V.Z

/-- `Vector3::Unit()`: unit-normalisation, returning the zero vector for a
zero-length input. -/
def Unit (v : Vector3) : Vector3 :=
  let MagnSq := v.NormSquared
  if MagnSq > 0 then
    if MagnSq = 1 then v else ⟨v.X / Sqrt MagnSq, v.Y / Sqrt MagnSq, v.Z / Sqrt MagnSq⟩
  else ZERO

/-- Vector addition. -/
def add (u v : Vector3) : Vector3 := ⟨u.X + v.X, u.Y + v.Y, u.Z + v.Z⟩

/-- Vector subtraction. -/
def sub (u v : Vector3) : Vector3 := ⟨u.X - v.X, u.Y - v.Y, u.Z - v.Z⟩

/-- Multiplication of a vector by a scalar (`operator*(double A)`). -/
def smul (A : ℝ) (v : Vector3) : Vector3 := ⟨A * v.X, A * v.Y, A * v.Z⟩

/-- Division of a vector by a scalar (`operator/(double A)`). -/
def divS (v : Vector3) (A : ℝ) : Vector3 := ⟨v.X / A, v.Y / A, v.Z / A⟩

end Vector3

/-- Quaternion (`class Quaternion`), scalar part `S` defaulting to `1`. -/
structure Quaternion where
  X : ℝ := 0
  Y : ℝ := 0
  Z : ℝ := 0
  S : ℝ := 1

namespace Quaternion

/-- `Quaternion::FromVectorAngle(U, Angle)`. -/
def FromVectorAngle (U : Vector3) (Angle : ℝ) : Quaternion :=
  let SAngle := Sin (Angle * 0.5)
  let Unit := U.Unit
  { X := Unit.X * SAngle, Y := Unit.Y * SAngle, Z := Unit.Z * SAngle, S := Cos (Angle * 0.5) }

/-- Quaternion composition: `A.mul B` is the C++ `A * B`
(`A.operator*(B)`, in which `Q` is `B` and the plain fields are `A`'s). -/
def mul (A B : Quaternion) : Quaternion :=
  { X := B.X * A.S + B.S * A.X + B.Z * A.Y - B.Y * A.Z,
    Y := B.Y * A.S + B.S * A.Y - B.Z * A.X + B.X * A.Z,
    Z := B.Z * A.S + B.S * A.Z + B.Y * A.X - B.X * A.Y,
    S := B.S * A.S - B.X * A.X - B.Y * A.Y - B.Z * A.Z }

/-- `Quaternion::Rotate(U)`. -/
def Rotate (q : Quaternion) (U : Vector3) : Vector3 :=
  let Tx := q.Z * U.Y - q.Y * U.Z
  let Ty := q.X * U.Z - q.Z * U.X
  let Tz := q.Y * U.X - q.X * U.Y
  ⟨U.X + 2 * (Tx * q.S + Ty * q.Z - Tz * q.Y),
   U.Y + 2 * (Ty * q.S + Tz * q.X - Tx * q.Z),
   U.Z + 2 * (Tz * q.S + Tx * q.Y - Ty * q.X)⟩

end Quaternion

/-- Celestial object relative position and velocity (`ephemeris.hpp`,
`struct EphemerisState`). -/
structure EphemerisState where
  Pos : Vector3 := Vector3.ZERO
  Vel : Vector3 := Vector3.ZERO
  LightTime : ℝ := 0

namespace TwoBody

/-- Classification of a two body orbit (`kepler.hpp`,
`enum struct OrbitClassification`). -/
inductive OrbitClassification where
  | INVALID
  | CIRCULAR_EQUATORIAL
  | CIRCULAR_INCLINED
  | ELLIPTICAL_EQUATORIAL
  | ELLIPTICAL_INCLINED
  | PARABOLIC
  | HYPERBOLIC
deriving DecidableEq, Repr

/-- Keplerian orbital elements (`kepler.hpp`, `struct KeplerianElements`);
every field is value-initialised to `0.0` in the source. -/
structure KeplerianElements where
  SemiParameter : ℝ := 0
  SemiMajorAxis : ℝ := 0
  Eccentricity : ℝ := 0
  Inclination : ℝ := 0
  Node : ℝ := 0
  ArgumentPerigee : ℝ := 0
  TrueAnomoly : ℝ := 0
  TrueLongitudeOfPeriapsis : ℝ := 0
  ArgumentLatitude : ℝ := 0
  TrueLongitude : ℝ := 0
  GravitationalParameter : ℝ := 0

/-- `IsValid`: the orbit is valid. -/
def IsValid (Elements : KeplerianElements) : Prop := Elements.SemiMajorAxis > 0

/-- `IsClosed`: the orbit is closed. -/
def IsClosed (Elements : KeplerianElements) : Prop := Elements.Eccentricity < 1

/-- `IsCircular`: exact equality against zero eccentricity. -/
def IsCircular (Elements : KeplerianElements) : Prop := Elements.Eccentricity = 0

/-- `IsParabolic`: exact equality against unit eccentricity. -/
def IsParabolic (Elements : KeplerianElements) : Prop := Elements.Eccentricity = 1

/-- `IsHyperbolic`. -/
def IsHyperbolic (Elements : KeplerianElements) : Prop := Elements.Eccentricity > 1

/-- `IsEquatorial`: exact equality of the inclination field against `0.0`
or `180.0` (the literals of the source). -/
def IsEquatorial (Elements : KeplerianElements) : Prop :=
  Elements.Inclination = 0 ∨ Elements.Inclination = 180

/-- `ClassifyOrbit` (`kepler.hpp`): regime classification, in the source's
branch order.  Note that the inclined/equatorial split tests
`Elements.Inclination == 0.0` directly, not `IsEquatorial`. -/
def ClassifyOrbit (Elements : KeplerianElements) : OrbitClassification :=
  if ¬ IsValid Elements then OrbitClassification.INVALID
  else if IsHyperbolic Elements then OrbitClassification.HYPERBOLIC
  else if IsParabolic Elements then OrbitClassification.PARABOLIC
  else if Elements.Eccentricity > 0 then
    if Elements.Inclination = 0 then OrbitClassification.ELLIPTICAL_EQUATORIAL
    else OrbitClassification.ELLIPTICAL_INCLINED
  else
    if Elements.Inclination = 0 then OrbitClassification.CIRCULAR_EQUATORIAL
    else OrbitClassification.CIRCULAR_INCLINED

/-- `CalculatePeriod` (s). -/
def CalculatePeriod (Elements : KeplerianElements) : ℝ :=
  if IsValid Elements ∧ IsClosed Elements then
    2 * PI * Sqrt (Cube Elements.SemiMajorAxis / Elements.GravitationalParameter)
  else Infinity

/-- `CalculateMeanRadialPeriod` (s). -/
def CalculateMeanRadialPeriod (Elements : KeplerianElements) : ℝ :=
  if IsClosed Elements then
    Sqrt (Cube Elements.SemiMajorAxis / Elements.GravitationalParameter)
  else if IsHyperbolic Elements then
    Sqrt (-Cube Elements.SemiMajorAxis / Elements.GravitationalParameter)
  else
    2 * Sqrt (Cube Elements.SemiParameter / Elements.GravitationalParameter)

/-- `CalculateRadius` (m). -/
def CalculateRadius (Elements : KeplerianElements) : ℝ :=
  Elements.SemiParameter / (1 + Elements.Eccentricity * Cos Elements.TrueAnomoly)

/-- `Newtonian2Kepler` (`kepler.hpp`): Keplerian elements from a Cartesian
state (Vallado Algorithm 9).  The source mutates a default-initialised
`Result`; fields that are assigned only under a condition are modelled as
conditionals over the default `0`. -/
def Newtonian2Kepler (Position Velocity : Vector3) (GravitationalParameter : ℝ) :
    KeplerianElements :=
  let Radius := Position.Norm
  if Radius = 0 ∨ Velocity.NormSquared = 0 then {}
  else
    let SpeedSquared := Velocity.NormSquared
    let AngularMomentum := Vector3.Cross Position Velocity
    let AngularMomentumMagn := AngularMomentum.Norm
    let NodeVector := Vector3.Cross Vector3.UNIT_Z AngularMomentum
    let NodeVectorMagn := NodeVector.Norm
    let KinematicDot := Vector3.Dot Position Velocity
    let EccentricityVector :=
      Vector3.divS
        (Vector3.sub (Vector3.smul (SpeedSquared - GravitationalParameter / Radius) Position)
          (Vector3.smul KinematicDot Velocity))
        GravitationalParameter
    let MechanicalEnergy := 0.5 * SpeedSquared - GravitationalParameter / Radius
    let Eccentricity := EccentricityVector.Norm
    let Magnitudes :=
      if Eccentricity = 1 then
        (AngularMomentumMagn * AngularMomentumMagn / GravitationalParameter, Infinity)
      else
        let SemiMajorAxis := -GravitationalParameter / (2 * MechanicalEnergy)
        (SemiMajorAxis * (1 - Eccentricity * Eccentricity), SemiMajorAxis)
    { SemiParameter := Magnitudes.1,
      SemiMajorAxis := Magnitudes.2,
      Eccentricity := Eccentricity,
      Inclination := Acos (AngularMomentum.Z / AngularMomentumMagn),
      Node :=
        if NodeVectorMagn > 0 then
          let n := Acos (NodeVector.X / NodeVectorMagn)
          if NodeVector.Y < 0 then 2 * PI - n else n
        else 0,
      ArgumentPerigee :=
        if NodeVectorMagn > 0 then
          let w := Acos (Vector3.Dot NodeVector EccentricityVector / (Eccentricity * NodeVectorMagn))
          if EccentricityVector.Z < 0 then 2 * PI - w else w
        else 0,
      ArgumentLatitude :=
        if NodeVectorMagn > 0 then
          let u := Acos (Vector3.Dot NodeVector Position / (NodeVectorMagn * Radius))
          if Position.Z < 0 then 2 * PI - u else u
        else 0,
      TrueAnomoly :=
        if Eccentricity > 0 then
          let nu := Acos (Vector3.Dot EccentricityVector Position / (Eccentricity * Radius))
          if KinematicDot < 0 then 2 * PI - nu else nu
        else 0,
      TrueLongitudeOfPeriapsis :=
        if Eccentricity > 0 then
          let l := Acos (EccentricityVector.X / Eccentricity)
          if EccentricityVector.Y < 0 then 2 * PI - l else l
        else 0,
      TrueLongitude :=
        let t := Acos (Position.X / Radius)
        if Position.Y < 0 then 2 * PI - t else t,
      GravitationalParameter := GravitationalParameter }

/-- `Kepler2Newtonian` (`kepler.hpp`): Cartesian state from Keplerian elements
(Vallado Algorithm 10). -/
def Kepler2Newtonian (Elements : KeplerianElements) : EphemerisState :=
  if ¬ IsValid Elements then {}
  else
    let Classification := ClassifyOrbit Elements
    let Angles :=   -- (UseAnomoly, UseNode, UsePerigee)
      if Classification = OrbitClassification.CIRCULAR_EQUATORIAL then
        (Elements.TrueLongitude, (0 : ℝ), (0 : ℝ))
      else if Classification = OrbitClassification.CIRCULAR_INCLINED then
        (Elements.ArgumentLatitude, Elements.Node, 0)
      else if Classification = OrbitClassification.ELLIPTICAL_EQUATORIAL then
        (Elements.TrueAnomoly, 0, Elements.TrueLongitudeOfPeriapsis)
      else
        (Elements.TrueAnomoly, Elements.Node, Elements.ArgumentPerigee)
    let UseAnomoly := Angles.1
    let UseNode := Angles.2.1
    let UsePerigee := Angles.2.2
    let CosAnomoly := Cos UseAnomoly
    let SinAnomoly := Sin UseAnomoly
    let Distance := Elements.SemiParameter / (1 + Elements.Eccentricity * CosAnomoly)
    let Coeff2 := Sqrt (Elements.GravitationalParameter / Elements.SemiParameter)
    let PosPQW : Vector3 := ⟨Distance * CosAnomoly, Distance * SinAnomoly, 0⟩
    let VelPQW : Vector3 := ⟨-Coeff2 * SinAnomoly, Coeff2 * (Elements.Eccentricity + CosAnomoly), 0⟩
    let Rot :=
      Quaternion.mul
        (Quaternion.mul (Quaternion.FromVectorAngle Vector3.UNIT_Z (-UsePerigee))
          (Quaternion.FromVectorAngle Vector3.UNIT_X (-Elements.Inclination)))
        (Quaternion.FromVectorAngle Vector3.UNIT_Z (-UseNode))
    { Pos := Rot.Rotate PosPQW, Vel := Rot.Rotate VelPQW, LightTime := Distance / SPEED_LIGHT }

/-- `TrueToEccentricAnomoly` (`kepler.hpp`): eccentric (or parabolic or
hyperbolic) anomaly from the true anomaly. -/
def TrueToEccentricAnomoly (TrueAnomoly Eccentricity : ℝ) : ℝ :=
  if Eccentricity < 1 then
    let CosNu := Cos TrueAnomoly
    let SinNu := Sin TrueAnomoly
    let Denominator := 1 + Eccentricity * CosNu
    let SinE := SinNu * Sqrt (1 - Square Eccentricity) / Denominator
    let CosE := (Eccentricity + CosNu) / Denominator
    Atan2 SinE CosE
  else if Eccentricity = 1 then
    Tan (0.5 * TrueAnomoly)
  else
    Asinh (Sin TrueAnomoly * Sqrt (Square Eccentricity - 1) / (1 + Eccentricity * Cos TrueAnomoly))

/-- `EccentricToTrueAnomoly` (`kepler.hpp`): true anomaly from the eccentric
(or parabolic or hyperbolic) anomaly; the elliptic branch goes through `acos`. -/
def EccentricToTrueAnomoly (Anomoly Eccentricity : ℝ) : ℝ :=
  if Eccentricity < 1 then
    let CosE := Cos Anomoly
    Acos ((CosE - Eccentricity) / (1 - Eccentricity * CosE))
  else if Eccentricity = 1 then
    2 * Atan Anomoly
  else
    let CoshH := Cosh Anomoly
    Acos ((CoshH - Eccentricity) / (1 - Eccentricity * CoshH))

/-- `EccentricToMeanAnomoly` (`kepler.hpp`): Kepler's equation and its
hyperbolic/parabolic analogues. -/
def EccentricToMeanAnomoly (Anomoly Eccentricity : ℝ) : ℝ :=
  if Eccentricity < 1 then Anomoly - Eccentricity * Sin Anomoly
  else if Eccentricity > 1 then Eccentricity * Sinh Anomoly - Anomoly
  else Anomoly + Cube Anomoly / 3

/-- Modelled from the spec: the anomaly result struct returned by
`Orbit::AnomolyFromDeltaTime`.  Its declaration (`twobody/orbit.hpp` of the
revision that `part_023` implements) is not among the sources; its three
fields and their zero defaults are read off the designated initialisers in
`part_023` and §4.4 of the spec ("returns a zero/default anomaly result"). -/
structure DeltaTimeAnomoly where
  MeanAnomoly : ℝ := 0
  EccentricAnomoly : ℝ := 0
  NumberRevolutions : ℤ := 0

/-- The `Orbit` entity: one `KeplerianElements` value plus the cached derived
scalars initialised by the constructor in `part_023` (the string-keyed dynamic
index member is omitted — it only aliases these fields). -/
structure Orbit where
  mElements : KeplerianElements
  mClassification : OrbitClassification
  mEccentricAnomoly : ℝ
  mMeanRadialPeriod : ℝ
  mPeriod : ℝ
  mRadius : ℝ
  mMeanAnomoly : ℝ

namespace Orbit

/-- The `Orbit` constructor from elements (`part_023`), member-initialiser
order preserved (`mMeanAnomoly` is computed from the already-initialised
`mEccentricAnomoly`). -/
def fromElements (Elements : KeplerianElements) : Orbit :=
  let mEccentricAnomoly := TrueToEccentricAnomoly Elements.TrueAnomoly Elements.Eccentricity
  let mMeanRadialPeriod := CalculateMeanRadialPeriod Elements
  { mElements := Elements,
    mClassification := ClassifyOrbit Elements,
    mEccentricAnomoly := mEccentricAnomoly,
    mMeanRadialPeriod := mMeanRadialPeriod,
    mPeriod := if IsClosed Elements then 2 * PI * mMeanRadialPeriod else Infinity,
    mRadius := CalculateRadius Elements,
    mMeanAnomoly := EccentricToMeanAnomoly mEccentricAnomoly Elements.Eccentricity }

/-- `Orbit::AnomolyFromDeltaTime` (`part_023`): regime-dispatched anomaly
after a time delta.  The elliptical and hyperbolic paths return the default
(zero) result in the source. -/
def AnomolyFromDeltaTime (o : Orbit) (DeltaTime : ℝ) : DeltaTimeAnomoly :=
  if o.mClassification = OrbitClassification.INVALID then {}
  else if IsCircular o.mElements then
    { EccentricAnomoly := Fmod DeltaTime o.mPeriod,
      NumberRevolutions := ⌊DeltaTime / o.mPeriod⌋ }
  else if IsClosed o.mElements then {}
  else if o.mClassification = OrbitClassification.HYPERBOLIC then {}
  else
    let A := 1.5 * (DeltaTime / o.mMeanRadialPeriod - o.mMeanAnomoly)
    let B := Cbrt (A + Sqrt (Square A + 1))
    let EccentricAnomoly := 2 * Atan (B - 1 / B)
    { MeanAnomoly := EccentricToMeanAnomoly EccentricAnomoly o.mElements.Eccentricity,
      EccentricAnomoly := EccentricAnomoly }

/-- `Orbit::Update` (`part_023`): the time-advance operation. -/
def Update (o : Orbit) (DeltaTime : ℝ) : Orbit :=
  let Anomoly := o.AnomolyFromDeltaTime DeltaTime
  if IsCircular o.mElements then
    { o with mElements := { o.mElements with TrueLongitude := Anomoly.EccentricAnomoly } }
  else
    let Elements :=
      { o.mElements with
        TrueAnomoly := EccentricToTrueAnomoly Anomoly.EccentricAnomoly o.mElements.Eccentricity }
    { o with
      mMeanAnomoly := Anomoly.MeanAnomoly,
      mEccentricAnomoly := Anomoly.EccentricAnomoly,
      mElements := Elements,
      mRadius := CalculateRadius Elements }

end Orbit

/-- The fixed counterexample elements of claim C7: a valid circular orbit with
the inclination field exactly `180`. -/
def el180 : KeplerianElements := { SemiMajorAxis := 1, Inclination := 180 }

/-- The circular-equatorial reference orbit of the spec's time-advance
fixture: `r = a_WGS84 + 400 km = 6778137 m` (so `p = a = r`, `e = 0`,
`i = 0`), with Earth's gravitational parameter from `constants.hpp`. -/
def referenceCircularElements : KeplerianElements :=
  { SemiParameter := 6778137, SemiMajorAxis := 6778137,
    GravitationalParameter := 3.986004418e14 }

/-- The `Orbit` object built from `referenceCircularElements`. -/
def referenceCircularOrbit : Orbit := Orbit.fromElements referenceCircularElements

end TwoBody

/-- Position of the Vallado Example 2-5 fixture (m). -/
def fixturePosition : Vector3 := ⟨6524834, 6862875, 6448296⟩

/-- Velocity of the Vallado Example 2-5 fixture (m/s). -/
def fixtureVelocity : Vector3 := ⟨4901.327, 5533.756, -1976.341⟩

end

open TwoBody

/-! ### Claim theorems -/

/-- **C8.** `ClassifyOrbit` is a total function: for every `KeplerianElements`
value it returns one of the seven enumeration values (it is a total Lean
function into the closed enumeration, so it cannot panic or throw), and it
returns `INVALID` if and only if `SemiMajorAxis ≤ 0`. -/
theorem claim_C8_classify_total (Elements : KeplerianElements) :
    (ClassifyOrbit Elements = OrbitClassification.INVALID ↔ Elements.SemiMajorAxis ≤ 0) ∧
    (ClassifyOrbit Elements = OrbitClassification.INVALID ∨
     ClassifyOrbit Elements = OrbitClassification.CIRCULAR_EQUATORIAL ∨
     ClassifyOrbit Elements = OrbitClassification.CIRCULAR_INCLINED ∨
     ClassifyOrbit Elements = OrbitClassification.ELLIPTICAL_EQUATORIAL ∨
     ClassifyOrbit Elements = OrbitClassification.ELLIPTICAL_INCLINED ∨
     ClassifyOrbit Elements = OrbitClassification.PARABOLIC ∨
     ClassifyOrbit Elements = OrbitClassification.HYPERBOLIC) := by
  unfold ClassifyOrbit IsValid IsHyperbolic IsParabolic
  split_ifs with h1 h2 h3 h4 h5 <;> simp_all

/-- **C7 counterexample.** The claim asserts that `ClassifyOrbit` returns an
EQUATORIAL variant exactly when `IsEquatorial` holds, in particular at
inclination exactly `180`.  On the code this fails: `el180` is valid, closed
and satisfies `IsEquatorial`, yet is classified `CIRCULAR_INCLINED`, because
`ClassifyOrbit` tests only `Inclination == 0.0`. -/
theorem claim_C7_counterexample :
    IsValid el180 ∧ el180.Eccentricity < 1 ∧ IsEquatorial el180 ∧
    ClassifyOrbit el180 = OrbitClassification.CIRCULAR_INCLINED ∧
    OrbitClassification.CIRCULAR_INCLINED ≠ OrbitClassification.CIRCULAR_EQUATORIAL ∧
    OrbitClassification.CIRCULAR_INCLINED ≠ OrbitClassification.ELLIPTICAL_EQUATORIAL := by
  refine ⟨by norm_num [IsValid, el180], by norm_num [el180], Or.inr (by norm_num [el180]), ?_, by simp, by simp⟩
  norm_num [ClassifyOrbit, IsValid, IsHyperbolic, IsParabolic, el180]

/-- **C7 (amended).** For a valid, non-parabolic, non-hyperbolic element set,
`ClassifyOrbit` returns the EQUATORIAL variant iff `Inclination = 0` exactly;
an inclination of exactly `180` yields the INCLINED variant even though
`IsEquatorial` holds of it. -/
theorem claim_C7_equatorial_iff (Elements : KeplerianElements)
    (hv : IsValid Elements) (hc : Elements.Eccentricity < 1) :
    (ClassifyOrbit Elements = OrbitClassification.CIRCULAR_EQUATORIAL ∨
     ClassifyOrbit Elements = OrbitClassification.ELLIPTICAL_EQUATORIAL) ↔
      Elements.Inclination = 0 := by
  unfold ClassifyOrbit IsValid IsHyperbolic IsParabolic at *
  split_ifs with h1 h2 h3 h4 h5 <;> simp_all
  linarith

/-- **C7 witness.** The amended C7 applied to a concrete valid circular
equatorial element set. -/
theorem claim_C7_witness :
    IsValid ({ SemiMajorAxis := 1 } : KeplerianElements) ∧
    (({ SemiMajorAxis := 1 } : KeplerianElements).Eccentricity < 1) ∧
    ((ClassifyOrbit { SemiMajorAxis := 1 } = OrbitClassification.CIRCULAR_EQUATORIAL ∨
      ClassifyOrbit { SemiMajorAxis := 1 } = OrbitClassification.ELLIPTICAL_EQUATORIAL) ↔
      ({ SemiMajorAxis := 1 } : KeplerianElements).Inclination = 0) :=
  ⟨by norm_num [IsValid], by norm_num,
    claim_C7_equatorial_iff _ (by norm_num [IsValid]) (by norm_num)⟩

/-- **C10.** For eccentricity `< 1` the elliptical branch of
`EccentricToTrueAnomoly` is an `acos`, so its value always lies in `[0, π]`:
the sign and quadrant information of the `atan2`-based forward map is
discarded by the inverse. -/
theorem claim_C10_elliptic_inverse_range (Anomoly Eccentricity : ℝ)
    (h : Eccentricity < 1) :
    0 ≤ EccentricToTrueAnomoly Anomoly Eccentricity ∧
    EccentricToTrueAnomoly Anomoly Eccentricity ≤ Real.pi := by
  unfold EccentricToTrueAnomoly
  rw [if_pos h]
  exact ⟨Real.arccos_nonneg _, Real.arccos_le_pi _⟩

/-- **C10 witness.** The range bound applied at anomaly `0`, eccentricity `0`. -/
theorem claim_C10_witness :
    (0 : ℝ) < 1 ∧ 0 ≤ EccentricToTrueAnomoly 0 0 ∧ EccentricToTrueAnomoly 0 0 ≤ Real.pi :=
  ⟨by norm_num, (claim_C10_elliptic_inverse_range 0 0 (by norm_num)).1,
    (claim_C10_elliptic_inverse_range 0 0 (by norm_num)).2⟩

/-- **C9.** Degenerate-input handling of the state conversions: a zero
position or zero velocity makes `Newtonian2Kepler` return the default
(all-zero) element set, which classifies as `INVALID`; `Kepler2Newtonian` on
an element set with `SemiMajorAxis ≤ 0` returns the default zero
`EphemerisState`.  (Both embeddings are total functions returning these
defaults, so no other error signal exists.) -/
theorem claim_C9_degenerate_defaults :
    (∀ (Velocity : Vector3) (μ : ℝ), Newtonian2Kepler Vector3.ZERO Velocity μ = {}) ∧
    (∀ (Position : Vector3) (μ : ℝ), Newtonian2Kepler Position Vector3.ZERO μ = {}) ∧
    ClassifyOrbit {} = OrbitClassification.INVALID ∧
    (∀ Elements : KeplerianElements, Elements.SemiMajorAxis ≤ 0 →
      Kepler2Newtonian Elements = {}) := by
  refine ⟨fun v μ => ?_, fun p μ => ?_, ?_, fun e he => ?_⟩
  · unfold Newtonian2Kepler
    rw [if_pos]
    left
    unfold Vector3.Norm Vector3.NormSquared Vector3.ZERO Sqrt
    norm_num
  · unfold Newtonian2Kepler
    rw [if_pos]
    right
    unfold Vector3.NormSquared Vector3.ZERO
    norm_num
  · norm_num [ClassifyOrbit, IsValid]
  · unfold Kepler2Newtonian
    rw [if_pos]
    unfold IsValid
    linarith

/-- `ClassifyOrbit` reads only the semi-major axis, eccentricity and
inclination fields. -/
lemma ClassifyOrbit_congr {e1 e2 : KeplerianElements}
    (ha : e1.SemiMajorAxis = e2.SemiMajorAxis)
    (he : e1.Eccentricity = e2.Eccentricity)
    (hi : e1.Inclination = e2.Inclination) :
    ClassifyOrbit e1 = ClassifyOrbit e2 := by
  unfold ClassifyOrbit IsValid IsHyperbolic IsParabolic
  rw [ha, he, hi]

/-- `Orbit::Update` touches neither the cached classification nor the element
fields the classifier reads. -/
lemma Update_classification_fields (o : Orbit) (dt : ℝ) :
    (o.Update dt).mClassification = o.mClassification ∧
    (o.Update dt).mElements.SemiMajorAxis = o.mElements.SemiMajorAxis ∧
    (o.Update dt).mElements.Eccentricity = o.mElements.Eccentricity ∧
    (o.Update dt).mElements.Inclination = o.mElements.Inclination := by
  simp only [Orbit.Update]
  split_ifs <;> exact ⟨rfl, rfl, rfl, rfl⟩

/-- Folding any sequence of updates preserves both the cached classification
and the recomputed classification of the element fields. -/
lemma foldl_Update_classification (dts : List ℝ) : ∀ o : Orbit,
    (dts.foldl Orbit.Update o).mClassification = o.mClassification ∧
    ClassifyOrbit (dts.foldl Orbit.Update o).mElements = ClassifyOrbit o.mElements := by
  induction dts with
  | nil => exact fun o => ⟨rfl, rfl⟩
  | cons d tl ih =>
    intro o
    have h := Update_classification_fields o d
    have htl := ih (o.Update d)
    simp only [List.foldl_cons]
    exact ⟨htl.1.trans h.1,
      htl.2.trans (ClassifyOrbit_congr h.2.1 h.2.2.1 h.2.2.2)⟩

/-- **C4.** The time-advance operation never changes the orbit
classification: after any sequence of `Update` calls on an orbit constructed
from any element set, both the cached classification and the classification
recomputed from the current elements equal the classification computed at
construction. -/
theorem claim_C4_update_preserves_classification
    (Elements : KeplerianElements) (dts : List ℝ) :
    (dts.foldl Orbit.Update (Orbit.fromElements Elements)).mClassification =
      ClassifyOrbit Elements ∧
    ClassifyOrbit (dts.foldl Orbit.Update (Orbit.fromElements Elements)).mElements =
      ClassifyOrbit Elements := by
  have h := foldl_Update_classification dts (Orbit.fromElements Elements)
  exact ⟨h.1.trans rfl, h.2.trans rfl⟩

/-- **C3 (code-bug evaluation).** For the spec's circular-equatorial reference
orbit, advancing by a quarter period stores `Fmod(Δt, Period) = Period/4` —
a time, greater than `3` seconds — into the true-longitude angle field, so the
claimed value `π/2` is not produced (classification, radius and period are
indeed unchanged, as the claim also states). -/
theorem claim_C3_circular_quarter_period :
    referenceCircularOrbit.mClassification = OrbitClassification.CIRCULAR_EQUATORIAL ∧
    (referenceCircularOrbit.Update (referenceCircularOrbit.mPeriod / 4)).mElements.TrueLongitude
      = referenceCircularOrbit.mPeriod / 4 ∧
    3 < referenceCircularOrbit.mPeriod / 4 ∧
    (referenceCircularOrbit.Update (referenceCircularOrbit.mPeriod / 4)).mElements.TrueLongitude
      ≠ Real.pi / 2 ∧
    (referenceCircularOrbit.Update (referenceCircularOrbit.mPeriod / 4)).mClassification
      = referenceCircularOrbit.mClassification ∧
    (referenceCircularOrbit.Update (referenceCircularOrbit.mPeriod / 4)).mRadius
      = referenceCircularOrbit.mRadius ∧
    (referenceCircularOrbit.Update (referenceCircularOrbit.mPeriod / 4)).mPeriod
      = referenceCircularOrbit.mPeriod := by
  have hcirc : IsCircular referenceCircularOrbit.mElements := rfl
  have hclass : referenceCircularOrbit.mClassification =
      OrbitClassification.CIRCULAR_EQUATORIAL := by
    show ClassifyOrbit referenceCircularElements = _
    norm_num [ClassifyOrbit, IsValid, IsHyperbolic, IsParabolic, referenceCircularElements]
  have hclosed : TwoBody.IsClosed referenceCircularElements := by
    show (0 : ℝ) < 1
    norm_num
  have hP : referenceCircularOrbit.mPeriod =
      2 * PI * Sqrt (Cube (6778137 : ℝ) / 3.986004418e14) := by
    show (if TwoBody.IsClosed referenceCircularElements then
        2 * PI * CalculateMeanRadialPeriod referenceCircularElements else Infinity) = _
    rw [if_pos hclosed, CalculateMeanRadialPeriod, if_pos hclosed]
    rfl
  have hsqrt : 2 < Sqrt (Cube (6778137 : ℝ) / 3.986004418e14) := by
    rw [Sqrt]
    exact (Real.lt_sqrt (by norm_num)).mpr (by norm_num [Cube])
  have hPgt : 12 < referenceCircularOrbit.mPeriod := by
    rw [hP]
    have hPIgt : (3 : ℝ) < PI := by norm_num [PI]
    nlinarith
  have hPne : referenceCircularOrbit.mPeriod ≠ 0 := by linarith
  have hfmod : Fmod (referenceCircularOrbit.mPeriod / 4) referenceCircularOrbit.mPeriod
      = referenceCircularOrbit.mPeriod / 4 := by
    unfold Fmod Ftrunc
    rw [show referenceCircularOrbit.mPeriod / 4 / referenceCircularOrbit.mPeriod
        = 1 / 4 by field_simp; ring]
    rw [if_pos (by norm_num), show ⌊(1 / 4 : ℝ)⌋ = 0 by norm_num [Int.floor_eq_zero_iff]]
    norm_num
  have hTL : (referenceCircularOrbit.Update
      (referenceCircularOrbit.mPeriod / 4)).mElements.TrueLongitude
      = referenceCircularOrbit.mPeriod / 4 := by
    simp only [Orbit.Update]
    rw [if_pos hcirc]
    show (referenceCircularOrbit.AnomolyFromDeltaTime _).EccentricAnomoly = _
    simp only [Orbit.AnomolyFromDeltaTime]
    rw [if_neg (by rw [hclass]; simp), if_pos hcirc]
    exact hfmod
  refine ⟨hclass, hTL, by linarith, ?_, ?_, ?_, ?_⟩
  · rw [hTL]
    intro hcontra
    have h34 : (3 : ℝ) < referenceCircularOrbit.mPeriod / 4 := by linarith
    rw [hcontra] at h34
    linarith [Real.pi_lt_four]
  · simp only [Orbit.Update]; rw [if_pos hcirc]
  · simp only [Orbit.Update]; rw [if_pos hcirc]
  · simp only [Orbit.Update]; rw [if_pos hcirc]

/-- The defining property of the `Atan2` model on the unit circle: its cosine
recovers the `X` argument. -/
lemma Atan2_cos {y x : ℝ} (h : x * x + y * y = 1) : Real.cos (Atan2 y x) = x := by
  have hz : (⟨x, y⟩ : ℂ) ≠ 0 := by
    intro h0
    have hx : x = 0 := by simpa using congrArg Complex.re h0
    have hy : y = 0 := by simpa using congrArg Complex.im h0
    rw [hx, hy] at h
    norm_num at h
  have habs : Complex.abs ⟨x, y⟩ = 1 := by
    rw [Complex.abs_apply, Complex.normSq_mk, h, Real.sqrt_one]
  have hc := Complex.cos_arg hz
  rw [habs] at hc
  simpa [Atan2] using hc

/-- **C2 counterexample.** The round trip fails off the principal branch: at
eccentricity `0` and true anomaly `-π/2` (inside `(-π, π)` and `[0, 0.99]` as
the claim requires) the `acos`-based inverse returns `+π/2`, an error of `π`,
far above the claimed `1e-12`. -/
theorem claim_C2_counterexample :
    ((0 : ℝ) ≤ 0 ∧ (0 : ℝ) ≤ 0.99) ∧
    (-Real.pi < -(Real.pi / 2) ∧ -(Real.pi / 2) < Real.pi) ∧
    1e-12 < |EccentricToTrueAnomoly (TrueToEccentricAnomoly (-(Real.pi / 2)) 0) 0
        - -(Real.pi / 2)| := by
  have hpi := Real.pi_gt_three
  refine ⟨⟨le_refl 0, by norm_num⟩, ⟨by linarith, by linarith⟩, ?_⟩
  have hfwd : TrueToEccentricAnomoly (-(Real.pi / 2)) 0 = -(Real.pi / 2) := by
    unfold TrueToEccentricAnomoly
    rw [if_pos (by norm_num)]
    show Atan2 (Real.sin (-(Real.pi / 2)) * Real.sqrt (1 - Square 0) / (1 + 0 * Real.cos (-(Real.pi / 2))))
        ((0 + Real.cos (-(Real.pi / 2))) / (1 + 0 * Real.cos (-(Real.pi / 2)))) = -(Real.pi / 2)
    rw [Real.cos_neg, Real.cos_pi_div_two, Real.sin_neg, Real.sin_pi_div_two]
    norm_num [Square, Real.sqrt_one]
    show Complex.arg ⟨0, -1⟩ = -(Real.pi / 2)
    rw [show (⟨0, -1⟩ : ℂ) = -Complex.I from by apply Complex.ext <;> simp]
    exact Complex.arg_neg_I
  have hinv : EccentricToTrueAnomoly (-(Real.pi / 2)) 0 = Real.pi / 2 := by
    unfold EccentricToTrueAnomoly
    rw [if_pos (by norm_num)]
    show Real.arccos ((Real.cos (-(Real.pi / 2)) - 0) / (1 - 0 * Real.cos (-(Real.pi / 2)))) = _
    rw [Real.cos_neg, Real.cos_pi_div_two]
    norm_num [Real.arccos_zero]
  rw [hfwd, hinv, show Real.pi / 2 - -(Real.pi / 2) = Real.pi by ring,
    abs_of_pos Real.pi_pos]
  linarith

/-- **C2 (amended).** On the principal branch the round trip is exact: for
every eccentricity `e ∈ [0, 0.99]` and true anomaly `ν ∈ [0, π)`,
`EccentricToTrueAnomoly (TrueToEccentricAnomoly ν e) e = ν` (hence within any
positive tolerance); for `ν ∈ (-π, 0)` the inverse instead returns `-ν`, as
the counterexample shows. -/
theorem claim_C2_roundtrip_principal (Eccentricity TrueAnomoly : ℝ)
    (he0 : 0 ≤ Eccentricity) (he1 : Eccentricity ≤ 0.99)
    (hv0 : 0 ≤ TrueAnomoly) (hv1 : TrueAnomoly < Real.pi) :
    EccentricToTrueAnomoly (TrueToEccentricAnomoly TrueAnomoly Eccentricity) Eccentricity
      = TrueAnomoly := by
  set e := Eccentricity with he_def
  set ν := TrueAnomoly with hν_def
  have he : e < 1 := lt_of_le_of_lt he1 (by norm_num)
  have hc1 : -1 ≤ Real.cos ν := Real.neg_one_le_cos ν
  have hd : 0 < 1 + e * Real.cos ν := by nlinarith
  have hsq : Real.sin ν ^ 2 + Real.cos ν ^ 2 = 1 := Real.sin_sq_add_cos_sq ν
  have he2 : (0 : ℝ) ≤ 1 - e * e := by nlinarith
  have hfwd : TrueToEccentricAnomoly ν e =
      Atan2 (Real.sin ν * Real.sqrt (1 - e * e) / (1 + e * Real.cos ν))
        ((e + Real.cos ν) / (1 + e * Real.cos ν)) := by
    unfold TrueToEccentricAnomoly
    rw [if_pos he]
    rfl
  rw [hfwd]
  have hkey : (e + Real.cos ν) * (e + Real.cos ν)
      + Real.sin ν * Real.sqrt (1 - e * e) * (Real.sin ν * Real.sqrt (1 - e * e))
      = (1 + e * Real.cos ν) * (1 + e * Real.cos ν) := by
    have hs : Real.sqrt (1 - e * e) * Real.sqrt (1 - e * e) = 1 - e * e :=
      Real.mul_self_sqrt he2
    calc (e + Real.cos ν) * (e + Real.cos ν)
        + Real.sin ν * Real.sqrt (1 - e * e) * (Real.sin ν * Real.sqrt (1 - e * e))
      = (e + Real.cos ν) * (e + Real.cos ν)
        + Real.sin ν * Real.sin ν * (Real.sqrt (1 - e * e) * Real.sqrt (1 - e * e)) := by ring
    _ = (e + Real.cos ν) * (e + Real.cos ν) + Real.sin ν * Real.sin ν * (1 - e * e) := by rw [hs]
    _ = (1 + e * Real.cos ν) * (1 + e * Real.cos ν) := by nlinarith [hsq]
  have hxy : (e + Real.cos ν) / (1 + e * Real.cos ν) * ((e + Real.cos ν) / (1 + e * Real.cos ν))
      + Real.sin ν * Real.sqrt (1 - e * e) / (1 + e * Real.cos ν)
        * (Real.sin ν * Real.sqrt (1 - e * e) / (1 + e * Real.cos ν)) = 1 := by
    rw [div_mul_div_comm, div_mul_div_comm, div_add_div_same, hkey]
    exact div_self (by positivity)
  have hcosE : Real.cos (Atan2
      (Real.sin ν * Real.sqrt (1 - e * e) / (1 + e * Real.cos ν))
      ((e + Real.cos ν) / (1 + e * Real.cos ν)))
      = (e + Real.cos ν) / (1 + e * Real.cos ν) := Atan2_cos hxy
  unfold EccentricToTrueAnomoly
  rw [if_pos he]
  show Real.arccos ((Real.cos (Atan2 _ _) - e) / (1 - e * Real.cos (Atan2 _ _))) = ν
  rw [hcosE]
  have h1e : (1 : ℝ) - e * e ≠ 0 := by nlinarith
  have harg : ((e + Real.cos ν) / (1 + e * Real.cos ν) - e)
      / (1 - e * ((e + Real.cos ν) / (1 + e * Real.cos ν))) = Real.cos ν := by
    rw [div_eq_iff]
    · field_simp
      ring
    · rw [show (1 : ℝ) - e * ((e + Real.cos ν) / (1 + e * Real.cos ν))
          = (1 - e * e) / (1 + e * Real.cos ν) from by field_simp; ring]
      exact div_ne_zero h1e hd.ne'
  rw [harg]
  exact Real.arccos_cos hv0 hv1.le

/-- **C2 witness.** The amended round trip at `e = 1/2`, `ν = 0`. -/
theorem claim_C2_witness :
    ((0 : ℝ) ≤ 1 / 2 ∧ (1 / 2 : ℝ) ≤ 0.99 ∧ (0 : ℝ) ≤ 0 ∧ (0 : ℝ) < Real.pi) ∧
    EccentricToTrueAnomoly (TrueToEccentricAnomoly 0 (1 / 2)) (1 / 2) = 0 :=
  ⟨⟨by norm_num, by norm_num, le_refl 0, Real.pi_pos⟩,
    claim_C2_roundtrip_principal (1 / 2) 0 (by norm_num) (by norm_num) (le_refl 0) Real.pi_pos⟩

/-- On a non-degenerate input, the inclination returned by `Newtonian2Kepler`
is the `acos` of the normalised out-of-plane angular-momentum component. -/
lemma Newtonian2Kepler_Inclination (p v : Vector3) (μ : ℝ)
    (h : ¬(p.Norm = 0 ∨ v.NormSquared = 0)) :
    (Newtonian2Kepler p v μ).Inclination =
      Acos ((Vector3.Cross p v).Z / (Vector3.Cross p v).Norm) := by
  unfold Newtonian2Kepler
  rw [if_neg h]

/-- **C1 (code-bug evaluation).** At the Vallado fixture the code returns the
inclination as `acos` of a ratio, a value in `[0, π]` radians; it therefore
cannot match the degree-valued fixture `87.86912617702644468` to `1e-15`
relative tolerance, refuting the claim as stated about the returned field
(the repository's own test asserts the degree values against this
radian-returning code). -/
theorem claim_C1_fixture_inclination_not_degrees :
    ¬(|(Newtonian2Kepler fixturePosition fixtureVelocity 3.986004418e14).Inclination
        - 87.86912617702644468| ≤ 87.86912617702644468 * 1e-15) := by
  have hguard : ¬(fixturePosition.Norm = 0 ∨ fixtureVelocity.NormSquared = 0) := by
    push_neg
    refine ⟨?_, ?_⟩
    · show Sqrt fixturePosition.NormSquared ≠ 0
      rw [Sqrt, Real.sqrt_ne_zero']
      show (0 : ℝ) < 6524834 * 6524834 + 6862875 * 6862875 + 6448296 * 6448296
      norm_num
    · show (4901.327 * 4901.327 + 5533.756 * 5533.756 + -1976.341 * -1976.341 : ℝ) ≠ 0
      norm_num
  have hincl := Newtonian2Kepler_Inclination fixturePosition fixtureVelocity 3.986004418e14 hguard
  intro habs
  rw [abs_le] at habs
  have h1 : (Newtonian2Kepler fixturePosition fixtureVelocity 3.986004418e14).Inclination
      ≤ Real.pi := by
    rw [hincl]
    exact Real.arccos_le_pi _
  have h4 : Real.pi < 4 := Real.pi_lt_four
  linarith [habs.1]

/-- **C9 witness.** The degenerate defaults at concrete inputs. -/
theorem claim_C9_witness :
    Newtonian2Kepler Vector3.ZERO ⟨1, 2, 3⟩ 10 = ({} : KeplerianElements) ∧
    ((-1 : ℝ) ≤ 0) ∧
    Kepler2Newtonian { SemiMajorAxis := -1 } = ({} : EphemerisState) :=
  ⟨claim_C9_degenerate_defaults.1 ⟨1, 2, 3⟩ 10, by norm_num,
    claim_C9_degenerate_defaults.2.2.2 _ (by norm_num)⟩

open RootFind

/-- **C6 counterexample.** The claim requires `INVALID_INTERVAL` whenever
`x1 ≥ x2`; but `Bisect` tests `f(x1) == 0` first, so with `f = x - 1`,
`x1 = 1 ≥ x2 = 0` it returns `SUCCESS` instead. -/
theorem claim_C6_counterexample :
    ((1 : ℚ) ≥ 0) ∧
    (Bisect (fun x => x - 1) 1 0 DefaultBoundedParameters).ExitCode = ExitStatus.SUCCESS ∧
    ExitStatus.SUCCESS ≠ ExitStatus.INVALID_INTERVAL := by
  refine ⟨by norm_num, ?_, by simp⟩
  simp only [Bisect]
  rw [if_pos (by norm_num)]

/-- **C6 (amended).** `Bisect` returns `INVALID_INTERVAL`, after evaluating
`Function` at the two boundary points only, whenever `f(x1)·f(x2) > 0`, and
also whenever `x1 ≥ x2` provided neither boundary value is exactly zero (a
zero boundary value short-circuits to `SUCCESS` even on a degenerate
interval, as the counterexample shows). -/
theorem claim_C6_bisect_invalid_interval (Function : ℚ → ℚ) (X1 X2 : ℚ)
    (Parameters : BoundedParameters)
    (h : Function X1 * Function X2 > 0 ∨
      (Function X1 ≠ 0 ∧ Function X2 ≠ 0 ∧ X1 ≥ X2)) :
    (Bisect Function X1 X2 Parameters).ExitCode = ExitStatus.INVALID_INTERVAL ∧
    bisectTrace Function X1 X2 Parameters = [X1, X2] := by
  simp only [Bisect, bisectTrace]
  rcases h with h | ⟨h1, h2, h3⟩
  · have h1 : Function X1 ≠ 0 := by
      intro h0
      rw [h0, zero_mul] at h
      exact absurd h (lt_irrefl 0)
    have h2 : Function X2 ≠ 0 := by
      intro h0
      rw [h0, mul_zero] at h
      exact absurd h (lt_irrefl 0)
    rw [if_neg h1, if_neg h2, if_pos h, if_neg h1, if_neg h2, if_pos h]
    exact ⟨rfl, rfl⟩
  · by_cases hp : Function X1 * Function X2 > 0
    · rw [if_neg h1, if_neg h2, if_pos hp, if_neg h1, if_neg h2, if_pos hp]
      exact ⟨rfl, rfl⟩
    · have hle : X2 - X1 ≤ 0 := by linarith
      rw [if_neg h1, if_neg h2, if_neg hp, if_pos hle,
        if_neg h1, if_neg h2, if_neg hp, if_pos hle]
      exact ⟨rfl, rfl⟩

/-- **C6 witness.** The amended statement at the repository's own
non-bracketing test case `f = x² + 2` on `[0, 2]`. -/
theorem claim_C6_witness :
    (F2 0 * F2 2 > 0) ∧
    (Bisect F2 0 2 DefaultBoundedParameters).ExitCode = ExitStatus.INVALID_INTERVAL ∧
    bisectTrace F2 0 2 DefaultBoundedParameters = [0, 2] := by
  have h : F2 0 * F2 2 > 0 ∨ (F2 0 ≠ 0 ∧ F2 2 ≠ 0 ∧ (0 : ℚ) ≥ 2) :=
    Or.inl (by norm_num [F2])
  exact ⟨by norm_num [F2],
    (claim_C6_bisect_invalid_interval F2 0 2 DefaultBoundedParameters h).1,
    (claim_C6_bisect_invalid_interval F2 0 2 DefaultBoundedParameters h).2⟩

/-- The state sequence equals the iterates of one loop step. -/
lemma newtonSeq_eq_iterate (f df : ℚ → ℚ) (r g : ℚ) (k : ℕ) :
    newtonSeq f df r g k = (newtonStep f df r)^[k] (g, f g / df g) := by
  induction k with
  | zero => rfl
  | succ n ih => simp [newtonSeq, ih, Function.iterate_succ_apply']

/-- Exit-code characterisation of the Newton loop, by induction on the
remaining fuel: `SUCCESS` (with the loop counter of the first convergent
step) iff some step within the remaining fuel satisfies the tolerance test;
otherwise the post-loop parameter diagnostic decides the code. -/
lemma newtonLoop_spec (f df : ℚ → ℚ) (p : NewtonParameters) :
    ∀ (fuel idx : ℕ) (s : ℚ × ℚ),
      ((∃ k, k < fuel ∧ |((newtonStep f df p.Relaxation)^[k] s).2| < p.Tolerance) →
        (newtonLoop f df p fuel idx s.1 s.2).ExitCode = ExitStatus.SUCCESS ∧
        ∃ k, k < fuel ∧ |((newtonStep f df p.Relaxation)^[k] s).2| < p.Tolerance ∧
          (∀ j, j < k → ¬(|((newtonStep f df p.Relaxation)^[j] s).2| < p.Tolerance)) ∧
          (newtonLoop f df p fuel idx s.1 s.2).Iterations = (idx : ℤ) + k) ∧
      ((¬ ∃ k, k < fuel ∧ |((newtonStep f df p.Relaxation)^[k] s).2| < p.Tolerance) →
        (newtonLoop f df p fuel idx s.1 s.2).ExitCode =
          (if p.Tolerance < 0 ∨ p.MaxIterations < 1 ∨ p.Relaxation < 0
           then ExitStatus.INVALID_PARAMETERS
           else ExitStatus.MAX_ITERATIONS_EXCEEDED)) := by
  intro fuel
  induction fuel with
  | zero =>
    intro idx s
    constructor
    · rintro ⟨k, hk, -⟩
      omega
    · intro _
      rfl
  | succ n ih =>
    intro idx s
    have hshift : ∀ k, (newtonStep f df p.Relaxation)^[k] (newtonStep f df p.Relaxation s)
        = (newtonStep f df p.Relaxation)^[k + 1] s :=
      fun k => (Function.iterate_succ_apply (newtonStep f df p.Relaxation) k s).symm
    by_cases hc : |s.2| < p.Tolerance
    · have hloop : newtonLoop f df p (n + 1) idx s.1 s.2 =
          { X := s.1 - s.2, Delta := s.2, Iterations := (idx : ℤ),
            ExitCode := ExitStatus.SUCCESS } := by
        simp only [newtonLoop]
        rw [if_pos hc]
      constructor
      · intro _
        refine ⟨by rw [hloop], 0, Nat.succ_pos n, by simpa using hc, ?_, by rw [hloop]; simp⟩
        intro j hj
        omega
      · intro hn
        exact absurd ⟨0, Nat.succ_pos n, by simpa using hc⟩ hn
    · have hloop : newtonLoop f df p (n + 1) idx s.1 s.2 =
          newtonLoop f df p n (idx + 1) (newtonStep f df p.Relaxation s).1
            (newtonStep f df p.Relaxation s).2 := by
        simp only [newtonLoop]
        rw [if_neg hc]
        rfl
      constructor
      · rintro ⟨k, hk, hkconv⟩
        match k, hk, hkconv with
        | 0, _, h0 => exact absurd (by simpa using h0) hc
        | (k + 1), hk, hkconv =>
          have hex' : ∃ m, m < n ∧
              |((newtonStep f df p.Relaxation)^[m] (newtonStep f df p.Relaxation s)).2|
                < p.Tolerance :=
            ⟨k, by omega, by rw [hshift k]; exact hkconv⟩
          obtain ⟨hsucc, m, hm, hmconv, hmfirst, hiter⟩ := (ih (idx + 1) _).1 hex'
          rw [hloop]
          refine ⟨hsucc, m + 1, by omega, by rw [← hshift m]; exact hmconv, ?_, ?_⟩
          · intro j hj
            match j with
            | 0 => simpa using hc
            | (j' + 1) =>
              intro hconv'
              exact hmfirst j' (by omega) (by rw [hshift j']; exact hconv')
          · rw [hiter]
            push_cast
            ring
      · intro hnone
        rw [hloop]
        apply (ih (idx + 1) _).2
        rintro ⟨m, hm, hconv⟩
        rw [hshift m] at hconv
        exact hnone ⟨m + 1, by omega, hconv⟩

/-- **C5.** Exit-code semantics of `Newton`: if some step `Δ_k` with
`k < maxIterations` satisfies `|Δ_k| < tolerance` the result is `SUCCESS` and
`Iterations` is the first such `k`; on non-convergence the result is
`INVALID_PARAMETERS` exactly when `tolerance < 0`, `maxIterations < 1` or
`relaxation < 0` (a post-loop diagnostic only — iteration is attempted
regardless), and `MAX_ITERATIONS_EXCEEDED` otherwise. -/
theorem claim_C5_newton_exit_spec (f df : ℚ → ℚ) (Guess : ℚ) (p : NewtonParameters) :
    ((∃ k, k < p.MaxIterations.toNat ∧
        |(newtonSeq f df p.Relaxation Guess k).2| < p.Tolerance) →
      (Newton f df Guess p).ExitCode = ExitStatus.SUCCESS ∧
      ∃ k, k < p.MaxIterations.toNat ∧
        |(newtonSeq f df p.Relaxation Guess k).2| < p.Tolerance ∧
        (∀ j, j < k → ¬(|(newtonSeq f df p.Relaxation Guess j).2| < p.Tolerance)) ∧
        (Newton f df Guess p).Iterations = (k : ℤ)) ∧
    ((¬ ∃ k, k < p.MaxIterations.toNat ∧
        |(newtonSeq f df p.Relaxation Guess k).2| < p.Tolerance) →
      (p.Tolerance < 0 ∨ p.MaxIterations < 1 ∨ p.Relaxation < 0) →
      (Newton f df Guess p).ExitCode = ExitStatus.INVALID_PARAMETERS) ∧
    ((¬ ∃ k, k < p.MaxIterations.toNat ∧
        |(newtonSeq f df p.Relaxation Guess k).2| < p.Tolerance) →
      ¬(p.Tolerance < 0 ∨ p.MaxIterations < 1 ∨ p.Relaxation < 0) →
      (Newton f df Guess p).ExitCode = ExitStatus.MAX_ITERATIONS_EXCEEDED) := by
  have hspec := newtonLoop_spec f df p p.MaxIterations.toNat 0 (Guess, f Guess / df Guess)
  dsimp only at hspec
  have hN : Newton f df Guess p
      = newtonLoop f df p p.MaxIterations.toNat 0 Guess (f Guess / df Guess) := rfl
  rw [hN]
  have hseq : ∀ k, newtonSeq f df p.Relaxation Guess k
      = (newtonStep f df p.Relaxation)^[k] (Guess, f Guess / df Guess) :=
    newtonSeq_eq_iterate f df p.Relaxation Guess
  constructor
  · intro hex
    obtain ⟨hsucc, k, hk, hkconv, hkfirst, hiter⟩ := hspec.1 (by
      obtain ⟨k, hk, hconv⟩ := hex
      exact ⟨k, hk, by rw [← hseq k]; exact hconv⟩)
    refine ⟨hsucc, k, hk, by rw [hseq k]; exact hkconv, ?_, by rw [hiter]; simp⟩
    intro j hj hconv
    exact hkfirst j hj (by rw [← hseq j]; exact hconv)
  constructor
  · intro hnone hbad
    have := hspec.2 (by
      rintro ⟨k, hk, hconv⟩
      exact hnone ⟨k, hk, by rw [hseq k]; exact hconv⟩)
    rw [this, if_pos hbad]
  · intro hnone hgood
    have := hspec.2 (by
      rintro ⟨k, hk, hconv⟩
      exact hnone ⟨k, hk, by rw [hseq k]; exact hconv⟩)
    rw [this, if_neg hgood]

/-- **C5 witness.** The exit-code characterisation at the repository's own
test functions: `x² - 2` from guess `1` converges (`SUCCESS` after 4 steps);
`x² + 2` does not (`MAX_ITERATIONS_EXCEEDED` with well-formed parameters,
`INVALID_PARAMETERS` with a negative tolerance). -/
theorem claim_C5_witness :
    ((Newton F1 D1 1 SmallNewtonParameters).ExitCode = ExitStatus.SUCCESS ∧
     (Newton F1 D1 1 SmallNewtonParameters).Iterations = 4) ∧
    (Newton F2 D1 1 SmallNewtonParameters).ExitCode = ExitStatus.MAX_ITERATIONS_EXCEEDED ∧
    (Newton F2 D1 1 BadNewtonParameters).ExitCode = ExitStatus.INVALID_PARAMETERS := by
  have h4conv : |(newtonSeq F1 D1 SmallNewtonParameters.Relaxation 1 4).2|
      < SmallNewtonParameters.Tolerance := by
    norm_num [SmallNewtonParameters, newtonSeq, newtonStep, F1, D1, abs_lt]
  have hj4 : ∀ j, j < 4 →
      ¬(|(newtonSeq F1 D1 SmallNewtonParameters.Relaxation 1 j).2|
        < SmallNewtonParameters.Tolerance) := by
    intro j hj
    interval_cases j <;>
      norm_num [SmallNewtonParameters, newtonSeq, newtonStep, F1, D1, le_abs]
  refine ⟨?_, ?_, ?_⟩
  · obtain ⟨hsucc, k, hk, hkconv, hkfirst, hiter⟩ :=
      (claim_C5_newton_exit_spec F1 D1 1 SmallNewtonParameters).1
        ⟨4, by norm_num [SmallNewtonParameters], h4conv⟩
    have hk4 : k = 4 := by
      rcases lt_trichotomy k 4 with h | h | h
      · exact absurd hkconv (hj4 k h)
      · exact h
      · exact absurd h4conv (hkfirst 4 h)
    rw [hk4] at hiter
    exact ⟨hsucc, by rw [hiter]; norm_num⟩
  · refine (claim_C5_newton_exit_spec F2 D1 1 SmallNewtonParameters).2.2 ?_ ?_
    · rintro ⟨k, hk, hconv⟩
      have hk6 : k < 6 := by
        simpa [SmallNewtonParameters] using hk
      revert hconv
      interval_cases k <;>
        norm_num [SmallNewtonParameters, newtonSeq, newtonStep, F2, D1, le_abs]
    · push_neg
      refine ⟨by norm_num [SmallNewtonParameters], by norm_num [SmallNewtonParameters],
        by norm_num [SmallNewtonParameters]⟩
  · refine (claim_C5_newton_exit_spec F2 D1 1 BadNewtonParameters).2.1 ?_ ?_
    · rintro ⟨k, hk, hconv⟩
      have habs := abs_nonneg (newtonSeq F2 D1 BadNewtonParameters.Relaxation 1 k).2
      have htol : BadNewtonParameters.Tolerance = -1 := rfl
      rw [htol] at hconv
      linarith
    · exact Or.inl (by norm_num [BadNewtonParameters])

end Hamilton
